import Mathlib

/-!
Verification of the selection-and-reconciliation workflow of
`src/modules/upgradinatorr.py` (upgradinatorr script).

The Python module is shallowly embedded: each Python function becomes a Lean
definition over explicit data.  Media items, queue records and result entries
are records; Python dictionaries whose key sets vary between code paths
(the per-item result entries) are association lists `List (String × Value)`
so that missing-key lookups are observable; fallible API calls of the `StARR`
client are `Except String` values supplied by the environment, and Python
runtime errors (`TypeError` from subscripting `None`, `KeyError` from a missing
dictionary key) are an explicit error type.  `process_instance` additionally
returns the list of mutating client calls it performed, so that "no tagging
call is made" style properties are statable.
-/

set_option autoImplicit false

/-- One media entry (movie or series), as handled by `filter_media` and
`process_instance`.  Mirrors the dictionary fields the script reads:
`media_id`, `title`, `year`, `monitored`, `status`, `tags`. -/
structure MediaItem where
  media_id : Int
  title : String
  year : Int
  monitored : Bool
  status : String
  tags : List Int
  deriving DecidableEq, Repr

/-- The status whitelist hard-coded in `filter_media` (line 51 of the source). -/
def allowedStatuses : List String :=
  ["continuing", "airing", "ended", "canceled", "released"]

/-- The skip condition of `filter_media` (line 51):
`tag_id in item['tags'] or item['monitored'] == False or item['status'] not in [...]`. -/
def skipItem (tag_id : Int) (item : MediaItem) : Bool :=
  decide (tag_id ∈ item.tags) || item.monitored == false
    || !decide (item.status ∈ allowedStatuses)

/-- The loop of `filter_media`, with the running `filter_count` explicit.
The loop breaks when `filter_count == count`, skips an item when `skipItem`
holds, and otherwise appends the item and increments `filter_count`. -/
def filterMediaLoop (tag_id count : Int) : List MediaItem → Int → List MediaItem
  | [], _ => []
  | item :: rest, filter_count =>
    if filter_count == count then []
    else if skipItem tag_id item then
      filterMediaLoop tag_id count rest filter_count
    else
      item :: filterMediaLoop tag_id count rest (filter_count + 1)

/-- Model of `filter_media(media_dict, tag_id, count)` (lines 32-57 of the source):
filters out tagged / unmonitored / wrong-status items and stops once `count`
items have been collected (`filter_count` starts at 0). -/
def filter_media (media_dict : List MediaItem) (tag_id count : Int) : List MediaItem :=
  filterMediaLoop tag_id count media_dict 0

/-- Helper: a media item concretely eligible for selection. -/
def eligibleItem : MediaItem :=
  { media_id := 1, title := "A", year := 2020, monitored := true,
    status := "ended", tags := [] }

theorem filterMediaLoop_sublist (tag_id count : Int) :
    ∀ (l : List MediaItem) (k : Int), (filterMediaLoop tag_id count l k).Sublist l := by
  intro l
  induction l with
  | nil => intro k; simp [filterMediaLoop]
  | cons item rest ih =>
    intro k
    simp only [filterMediaLoop]
    split
    · exact List.nil_sublist _
    · split
      · exact (ih k).cons _
      · exact (ih (k + 1)).cons₂ _

theorem filterMediaLoop_mem (tag_id count : Int) :
    ∀ (l : List MediaItem) (k : Int) (x : MediaItem),
      x ∈ filterMediaLoop tag_id count l k → skipItem tag_id x = false := by
  intro l
  induction l with
  | nil => intro k x hx; simp [filterMediaLoop] at hx
  | cons item rest ih =>
    intro k x hx
    simp only [filterMediaLoop] at hx
    split at hx
    · simp at hx
    · split at hx
      · exact ih k x hx
      · rename_i hskip
        rcases List.mem_cons.mp hx with h | h
        · subst h; simpa using hskip
        · exact ih (k + 1) x h

theorem filterMediaLoop_length (tag_id count : Int) :
    ∀ (l : List MediaItem) (k : Int), k ≤ count →
      ((filterMediaLoop tag_id count l k).length : Int) ≤ count - k := by
  intro l
  induction l with
  | nil => intro k hk; simp [filterMediaLoop]; omega
  | cons item rest ih =>
    intro k hk
    simp only [filterMediaLoop]
    split
    · simp; omega
    · rename_i hne
      have hlt : k < count := by
        rcases lt_or_eq_of_le hk with h | h
        · exact h
        · exact absurd (beq_iff_eq.mpr h) (by simpa using hne)
      split
      · have := ih k hk
        omega
      · have := ih (k + 1) (by omega)
        simp only [List.length_cons]
        push_cast
        omega

/-- C2: as stated the claim quantifies over every limit, but `filter_media`
only stops when `filter_count == count`; a negative count is never reached, so
the result can be longer than `count`.  Concretely, with one eligible item and
`count = -1` the result has length 1, which is not `≤ -1`. -/
theorem upgradinatorr_C2_cex :
    ¬ (((filter_media [eligibleItem] 5 (-1)).length : Int) ≤ -1) := by decide

/-- C2 (amended): for every nonnegative `count`, `filter_media` returns at most
`count` items; for every `count` the result is a sublist of the input (so the
relative input order is preserved), and every returned item does not carry the
tag id, is monitored, and has a whitelisted status. -/
theorem upgradinatorr_C2 (media_dict : List MediaItem) (tag_id count : Int) :
    (0 ≤ count → ((filter_media media_dict tag_id count).length : Int) ≤ count)
    ∧ (filter_media media_dict tag_id count).Sublist media_dict
    ∧ ∀ x ∈ filter_media media_dict tag_id count,
        tag_id ∉ x.tags ∧ x.monitored = true ∧ x.status ∈ allowedStatuses := by
  refine ⟨fun h => ?_, filterMediaLoop_sublist tag_id count media_dict 0, ?_⟩
  · have := filterMediaLoop_length tag_id count media_dict 0 h
    simp only [filter_media]
    omega
  · intro x hx
    have hs := filterMediaLoop_mem tag_id count media_dict 0 x hx
    simp only [skipItem, Bool.or_eq_false_iff, beq_eq_false_iff_ne, ne_eq,
      decide_eq_false_iff_not, Bool.not_eq_false, decide_eq_true_eq] at hs
    exact ⟨hs.1.1, by simpa using hs.1.2, by simpa using hs.2⟩

/-- C2 witness: the amended bound applied at a concrete input. -/
theorem upgradinatorr_C2_witness :
    ((filter_media [eligibleItem] 5 1).length : Int) ≤ 1 :=
  (upgradinatorr_C2 [eligibleItem] 5 1).1 (by decide)

/-- C3: the claim asserts an empty result for every `limit ≤ 0`, but the loop
of `filter_media` breaks only on `filter_count == count`; with `count = -1`
and one eligible item the result is nonempty. -/
theorem upgradinatorr_C3_cex : filter_media [eligibleItem] 5 (-1) ≠ [] := by decide

/-- C3 (amended): if the limit equals zero, `filter_media` returns the empty
sequence (the `filter_count == count` break fires before the first item). -/
theorem upgradinatorr_C3 (media_dict : List MediaItem) (tag_id : Int) :
    filter_media media_dict tag_id 0 = [] := by
  cases media_dict <;> simp [filter_media, filterMediaLoop]

/-- The two entity kinds the script distinguishes (`instance_type` values for
which `process_queue` defines an `id_type`). -/
inductive InstanceType where
  | radarr
  | sonarr
  deriving DecidableEq, Repr

/-- One raw record of the download queue payload, with the fields
`process_queue` reads.  Radarr payloads carry `movieId`, Sonarr payloads
`seriesId`; both fields are present in the model and `recordMediaId` selects
the one the code reads for the given instance type. -/
structure RawQueueRecord where
  movieId : Int
  seriesId : Int
  downloadId : String
  title : String
  customFormatScore : Int
  deriving DecidableEq, Repr

/-- One processed queue association as built by `process_queue`
(lines 83-88 of the source). -/
structure QueueEntry where
  download_id : String
  media_id : Int
  torrent : String
  torrent_custom_format_score : Int
  deriving DecidableEq, Repr

/-- The lookup `item[id_type]` of line 79: `movieId` for radarr, `seriesId` for sonarr. -/
def recordMediaId (instance_type : InstanceType) (r : RawQueueRecord) : Int :=
  match instance_type with
  | .radarr => r.movieId
  | .sonarr => r.seriesId

/-- Model of `process_queue(queue, instance_type, media_ids)` (lines 60-91): keep the
records whose media id is in `media_ids`, project them to `QueueEntry`, and
deduplicate.  The Python code deduplicates through a set comprehension whose
iteration order is arbitrary; the model fixes one representative order with
`List.dedup`, and every claim about `process_queue` is stated at the level of
the underlying set of entries. -/
def process_queue (queue : List RawQueueRecord) (instance_type : InstanceType)
    (media_ids : List Int) : List QueueEntry :=
  ((queue.filter (fun r => decide (recordMediaId instance_type r ∈ media_ids))).map
    (fun r => ⟨r.downloadId, recordMediaId instance_type r, r.title, r.customFormatScore⟩)).dedup

/-- C7: appending an exact copy of a record already in the queue leaves the
reconciled association set unchanged, and the reconciled output never repeats
a (download_id, media_id, torrent, score) tuple. -/
theorem upgradinatorr_C7 (queue : List RawQueueRecord) (r : RawQueueRecord)
    (instance_type : InstanceType) (media_ids : List Int) (h : r ∈ queue) :
    (process_queue (queue ++ [r]) instance_type media_ids).toFinset
        = (process_queue queue instance_type media_ids).toFinset
    ∧ (process_queue queue instance_type media_ids).Nodup := by
  refine ⟨?_, List.nodup_dedup _⟩
  ext x
  simp only [process_queue, List.mem_toFinset, List.mem_dedup, List.mem_map,
    List.mem_filter, List.mem_append, List.mem_singleton]
  constructor
  · rintro ⟨a, ⟨ha | rfl, hid⟩, rfl⟩
    · exact ⟨a, ⟨ha, hid⟩, rfl⟩
    · exact ⟨a, ⟨h, hid⟩, rfl⟩
  · rintro ⟨a, ⟨ha, hid⟩, rfl⟩
    exact ⟨a, ⟨Or.inl ha, hid⟩, rfl⟩

/-- Helper: a concrete raw queue record matching media id 1. -/
def qrecA : RawQueueRecord :=
  { movieId := 1, seriesId := 1, downloadId := "d1", title := "t1",
    customFormatScore := 10 }

/-- C7 witness: two identical records for one item reconcile to the same set
as one record, with no duplicated tuple. -/
theorem upgradinatorr_C7_witness :
    (process_queue [qrecA, qrecA] .radarr [1]).toFinset
        = (process_queue [qrecA] .radarr [1]).toFinset
    ∧ (process_queue [qrecA] .radarr [1]).Nodup :=
  upgradinatorr_C7 [qrecA] qrecA .radarr [1] (by decide)

/-- Values stored in a per-item result entry: Python ints, strings, `None`,
and the nested `torrents` dictionary (release title → score). -/
inductive Value where
  | vint (n : Int)
  | vstr (s : String)
  | vnull
  | vscores (m : List (String × Int))
  deriving DecidableEq, Repr

/-- Python dictionary lookup `d[k]` on an association-list entry, returning
`none` when the key is absent (a `KeyError` in Python). -/
def getKey : List (String × Value) → String → Option Value
  | [], _ => none
  | p :: rest, k => if p.1 == k then some p.2 else getKey rest k

/-- Python dictionary assignment `d[k] = v`: update in place when the key is
present, append otherwise. -/
def dictInsert (m : List (String × Int)) (k : String) (v : Int) : List (String × Int) :=
  if m.any (fun p => p.1 == k) then
    m.map (fun p => if p.1 == k then (k, v) else p)
  else m ++ [(k, v)]

/-- The inner loop of lines 171-173: the `torrents` dictionary collected for
one selected item from the processed queue. -/
def buildTorrents (media_id : Int) (queue_dict : List QueueEntry) : List (String × Int) :=
  queue_dict.foldl
    (fun m q =>
      if media_id == q.media_id then dictInsert m q.torrent q.torrent_custom_format_score
      else m)
    []

/-- After the inner `for queue_item in queue_dict` loop finishes, the loop
variable `queue_item` holds the last element of `queue_dict`, whether or not
it matched the current item; line 180 reads its score.  The default 0 is never
reached by the code path: line 180 only runs when `torrents` is nonempty,
which forces `queue_dict` to be nonempty. -/
def lastQueueScore (queue_dict : List QueueEntry) : Int :=
  (queue_dict.map (fun q => q.torrent_custom_format_score)).getLastD 0

/-- The result entry appended in the non-dry-run branch (lines 175-181). -/
def upgradeEntry (item : MediaItem) (torrents : List (String × Int)) (score : Int) :
    List (String × Value) :=
  [("media_id", Value.vint item.media_id), ("title", Value.vstr item.title),
   ("year", Value.vint item.year), ("torrents", Value.vscores torrents),
   ("torrent_custom_format_score", Value.vint score)]

/-- The result entry appended in the dry-run branch (lines 184-190): the key
is `torrent` (not `torrents`) and both torrent fields are `None`. -/
def dryRunEntry (item : MediaItem) : List (String × Value) :=
  [("media_id", Value.vint item.media_id), ("title", Value.vstr item.title),
   ("year", Value.vint item.year), ("torrent", Value.vnull),
   ("torrent_custom_format_score", Value.vnull)]

/-- The reconciliation loop of lines 169-181: one entry per selected item
whose `torrents` dictionary is nonempty (`if torrents:`), in selection order. -/
def buildData (filtered : List MediaItem) (queue_dict : List QueueEntry) :
    List (List (String × Value)) :=
  filtered.foldr
    (fun item acc =>
      let ts := buildTorrents item.media_id queue_dict
      if ts.isEmpty then acc
      else upgradeEntry item ts (lastQueueScore queue_dict) :: acc)
    []

/-- Score of the last association in the processed queue that matches a given
item.  This definition follows the words of the spec and of claim C8 ("the
last-seen association's score ... matching that item"), for comparison with
what the code computes; default 0 when no association matches. -/
def lastMatchingScore (media_id : Int) (queue_dict : List QueueEntry) : Int :=
  ((queue_dict.filter (fun q => media_id == q.media_id)).map
    (fun q => q.torrent_custom_format_score)).getLastD 0

theorem getKey_upgradeEntry_torrents (item : MediaItem) (ts : List (String × Int)) (s : Int) :
    getKey (upgradeEntry item ts s) "torrents" = some (Value.vscores ts) := rfl

theorem getKey_upgradeEntry_score (item : MediaItem) (ts : List (String × Int)) (s : Int) :
    getKey (upgradeEntry item ts s) "torrent_custom_format_score" = some (Value.vint s) := rfl

theorem getKey_dryRunEntry_torrents (item : MediaItem) :
    getKey (dryRunEntry item) "torrents" = none := rfl

/-- C6 (amended): the data list of a non-dry-run instance result contains
exactly the selected items whose `torrents` dictionary is nonempty, in
selection order; an item matching zero queue associations is omitted by the
`if torrents:` guard, not included. -/
theorem upgradinatorr_C6 (filtered : List MediaItem) (queue_dict : List QueueEntry) :
    buildData filtered queue_dict
      = (filtered.filter
          (fun item => !(buildTorrents item.media_id queue_dict).isEmpty)).map
          (fun item => upgradeEntry item (buildTorrents item.media_id queue_dict)
            (lastQueueScore queue_dict)) := by
  induction filtered with
  | nil => rfl
  | cons item rest ih =>
    simp only [buildData, List.foldr_cons] at ih ⊢
    by_cases h : (buildTorrents item.media_id queue_dict).isEmpty
    · rw [if_pos h, ih, List.filter_cons]
      have hb : (!(buildTorrents item.media_id queue_dict).isEmpty) = false := by
        rw [h]; rfl
      rw [hb]
      simp
    · rw [if_neg h, ih, List.filter_cons]
      have hb : (!(buildTorrents item.media_id queue_dict).isEmpty) = true := by
        cases hb2 : (buildTorrents item.media_id queue_dict).isEmpty
        · rfl
        · exact absurd hb2 h
      rw [hb]
      simp

/-- C8 (amended): every entry of the non-dry-run data list carries, as its
top-level `torrent_custom_format_score`, the score of the last element of the
whole processed queue list (the final value of the loop variable
`queue_item`), which need not match the entry's item; the `torrents` mapping
carries the item's matching release-title → score pairs. -/
theorem upgradinatorr_C8 (filtered : List MediaItem) (queue_dict : List QueueEntry)
    (e : List (String × Value)) (he : e ∈ buildData filtered queue_dict) :
    ∃ item ∈ filtered,
      e = upgradeEntry item (buildTorrents item.media_id queue_dict)
            (lastQueueScore queue_dict)
      ∧ getKey e "torrents"
          = some (Value.vscores (buildTorrents item.media_id queue_dict))
      ∧ getKey e "torrent_custom_format_score"
          = some (Value.vint (lastQueueScore queue_dict)) := by
  induction filtered with
  | nil => simp [buildData] at he
  | cons item rest ih =>
    simp only [buildData, List.foldr_cons] at he
    by_cases h : (buildTorrents item.media_id queue_dict).isEmpty
    · simp only [h, if_pos] at he
      obtain ⟨x, hx, hrest⟩ := ih he
      exact ⟨x, List.mem_cons_of_mem _ hx, hrest⟩
    · simp only [h, if_neg, Bool.false_eq_true, not_false_iff] at he
      rcases List.mem_cons.mp he with hhd | htl
      · subst hhd
        exact ⟨item, List.mem_cons_self _ _, rfl,
          getKey_upgradeEntry_torrents .., getKey_upgradeEntry_score ..⟩
      · obtain ⟨x, hx, hrest⟩ := ih htl
        exact ⟨x, List.mem_cons_of_mem _ hx, hrest⟩

/-- Helper: second concrete media item (id 2), eligible for selection. -/
def eligibleItem2 : MediaItem :=
  { media_id := 2, title := "B", year := 2021, monitored := true,
    status := "released", tags := [] }

/-- Helper: a processed queue with one association for item 1 (score 10) and
one for item 2 (score 99); the item-2 association comes last. -/
def qdC8 : List QueueEntry :=
  [{ download_id := "d1", media_id := 1, torrent := "t1",
     torrent_custom_format_score := 10 },
   { download_id := "d2", media_id := 2, torrent := "t2",
     torrent_custom_format_score := 99 }]

/-- C8: the claim says the top-level score of an item's entry is the score of
the last association matching that item.  In the code the loop variable
`queue_item` holds the last element of the whole queue list when line 180
runs, so item 1's entry records item 2's score 99 instead of its own last
matching score 10. -/
theorem upgradinatorr_C8_cex :
    getKey ((buildData [eligibleItem, eligibleItem2] qdC8).headD []) "media_id"
        = some (Value.vint 1)
    ∧ lastMatchingScore 1 qdC8 = 10
    ∧ getKey ((buildData [eligibleItem, eligibleItem2] qdC8).headD [])
        "torrent_custom_format_score"
        ≠ some (Value.vint (lastMatchingScore 1 qdC8)) := by decide

/-- C8 witness: the amended statement applied to the concrete run above. -/
theorem upgradinatorr_C8_witness :
    ∃ item ∈ [eligibleItem, eligibleItem2],
      (buildData [eligibleItem, eligibleItem2] qdC8).headD []
          = upgradeEntry item (buildTorrents item.media_id qdC8) (lastQueueScore qdC8)
      ∧ getKey ((buildData [eligibleItem, eligibleItem2] qdC8).headD []) "torrents"
          = some (Value.vscores (buildTorrents item.media_id qdC8))
      ∧ getKey ((buildData [eligibleItem, eligibleItem2] qdC8).headD [])
          "torrent_custom_format_score"
          = some (Value.vint (lastQueueScore qdC8)) :=
  upgradinatorr_C8 [eligibleItem, eligibleItem2] qdC8
    ((buildData [eligibleItem, eligibleItem2] qdC8).headD []) (by decide)

/-- Python-level failures the embedded workflow can surface: an API call that
raises, a `TypeError` (subscripting `None`), a `KeyError` (missing dict key). -/
inductive PyError where
  | clientError (msg : String)
  | typeError
  | keyError (k : String)
  deriving DecidableEq, Repr

/-- A command handle returned by `search_media` / `add_tags`; the script only
reads its `id` field (line 163). -/
structure CommandResponse where
  id : Int
  deriving DecidableEq, Repr

/-- The client calls issued by `process_instance` after filtering, recorded in
order so that "no tagging call is made" style properties are statable. -/
inductive CallEvent where
  | searchMedia (ids : List Int)
  | addTags (ids : List Int) (tag : Int)
  | getCommandStatus (id : Int)
  | getQueue
  deriving DecidableEq, Repr

/-- Per-instance settings read at lines 112-114 (defaults `count=2`,
`tag_name="checked"`, `unattended=False`). -/
structure InstanceSettings where
  count : Int
  tag_name : String
  unattended : Bool
  deriving DecidableEq, Repr

/-- Behavior of one `StARR` client (the external media-server collaborator):
each call either raises (`Except.error`) or returns a value; `search_media`
and `add_tags` may return a falsy/absent handle (`Option`). -/
structure StARRClient where
  instance_name : String
  media : Except String (List MediaItem)
  tag_id_of : String → Except String Int
  search_media_resp : List Int → Except String (Option CommandResponse)
  add_tags_resp : List Int → Int → Except String (Option CommandResponse)
  command_status : Int → Except String Bool
  queue : Except String (List RawQueueRecord)

/-- The per-instance output dictionary initialized at lines 149-155. -/
structure OutputDict where
  server_name : String
  tagged_count : Nat
  untagged_count : Nat
  total_count : Nat
  data : List (List (String × Value))
  deriving DecidableEq, Repr

/-- Lines 163-181, after the search/tag calls: `ready =
app.get_command_status(response['id'])` sits outside the `if response:` guard,
so a falsy `response` raises a `TypeError` here; otherwise the command status
is polled, `time.sleep(3)` passes (no observable effect in the model), and on
readiness the queue is fetched and reconciled into data entries.  `log` is the
call log accumulated so far. -/
def afterSearch (app : StARRClient) (instance_type : InstanceType)
    (filtered : List MediaItem) (media_ids : List Int)
    (response : Option CommandResponse) (log : List CallEvent) :
    Except PyError (List (List (String × Value))) × List CallEvent :=
  match response with
  | none => (.error .typeError, log)
  | some cmd =>
    match app.command_status cmd.id with
    | .error e => (.error (.clientError e), log ++ [.getCommandStatus cmd.id])
    | .ok ready =>
      if ready then
        match app.queue with
        | .error e => (.error (.clientError e),
            log ++ [.getCommandStatus cmd.id, .getQueue])
        | .ok queue =>
          (.ok (buildData filtered (process_queue queue instance_type media_ids)),
            log ++ [.getCommandStatus cmd.id, .getQueue])
      else (.ok [], log ++ [.getCommandStatus cmd.id])

/-- Lines 158-190: the entries appended to `output_dict['data']` (or the
Python error aborting the instance) together with the call log.  Non-dry run:
trigger the search, tag only when the search response is truthy
(`if response:`), then continue at line 163.  Dry run: one `dryRunEntry` per
selected item, no client calls. -/
def collectData (dry_run : Bool) (instance_type : InstanceType) (app : StARRClient)
    (tag_id : Int) (filtered : List MediaItem) :
    Except PyError (List (List (String × Value))) × List CallEvent :=
  if dry_run then (.ok (filtered.map dryRunEntry), [])
  else
    let media_ids := filtered.map (fun i => i.media_id)
    match app.search_media_resp media_ids with
    | .error e => (.error (.clientError e), [.searchMedia media_ids])
    | .ok sresp =>
      match sresp with
      | some _ =>
        match app.add_tags_resp media_ids tag_id with
        | .error e => (.error (.clientError e),
            [.searchMedia media_ids, .addTags media_ids tag_id])
        | .ok aresp =>
          afterSearch app instance_type filtered media_ids aresp
            [.searchMedia media_ids, .addTags media_ids tag_id]
      | none =>
          afterSearch app instance_type filtered media_ids none
            [.searchMedia media_ids]

/-- Model of `process_instance(instance_type, instance_settings, app)` (lines 93-191):
fetch the library, resolve the tag id, filter, compute the whole-library
tagged/untagged/total counters (lines 140-146), then run the dry-run or the
mutation branch for the `data` list.  An uncaught client failure or Python
error aborts the instance with that error. -/
def process_instance (dry_run : Bool) (instance_type : InstanceType)
    (instance_settings : InstanceSettings) (app : StARRClient) :
    Except PyError OutputDict × List CallEvent :=
  match app.media with
  | .error e => (.error (.clientError e), [])
  | .ok media_dict =>
    match app.tag_id_of instance_settings.tag_name with
    | .error e => (.error (.clientError e), [])
    | .ok tag_id =>
      let filtered := filter_media media_dict tag_id instance_settings.count
      let base : OutputDict :=
        { server_name := app.instance_name,
          tagged_count :=
            (media_dict.filter (fun i => decide (tag_id ∈ i.tags))).length,
          untagged_count :=
            (media_dict.filter (fun i => !decide (tag_id ∈ i.tags))).length,
          total_count := media_dict.length,
          data := [] }
      match collectData dry_run instance_type app tag_id filtered with
      | (.error e, log) => (.error e, log)
      | (.ok d, log) => (.ok { base with data := d }, log)

/-- Helper: the default per-instance settings (`count=2`, `tag_name="checked"`,
`unattended=False`). -/
def defaultSettings : InstanceSettings :=
  { count := 2, tag_name := "checked", unattended := false }

/-- Helper: client whose search trigger succeeds but returns a falsy (absent)
handle; every other call would succeed. -/
def appNoHandle : StARRClient :=
  { instance_name := "srv",
    media := .ok [eligibleItem],
    tag_id_of := fun _ => .ok 5,
    search_media_resp := fun _ => .ok none,
    add_tags_resp := fun _ _ => .ok (some { id := 8 }),
    command_status := fun _ => .ok true,
    queue := .ok [] }

/-- C1: when the search trigger returns a falsy response, the tag call is
indeed skipped (the call log holds only the search call) and the command
status is never polled, but the instance does not contribute an empty result:
line 163 evaluates `response['id']` outside the `if response:` guard, so
subscripting the falsy response raises a `TypeError`, which no handler in
`main` catches. -/
theorem upgradinatorr_C1_bug :
    process_instance false .radarr defaultSettings appNoHandle
      = (.error .typeError, [.searchMedia [1]]) := rfl

/-- C5: every successfully computed instance result with positive total count
satisfies `tagged_count + untagged_count = total_count`: lines 140-146 count
every library item into exactly one of the two buckets by tag membership. -/
theorem upgradinatorr_C5 (dry_run : Bool) (instance_type : InstanceType)
    (instance_settings : InstanceSettings) (app : StARRClient)
    (out : OutputDict) (log : List CallEvent)
    (h : process_instance dry_run instance_type instance_settings app = (.ok out, log))
    (hpos : 0 < out.total_count) :
    out.tagged_count + out.untagged_count = out.total_count := by
  unfold process_instance at h
  split at h
  · simp at h
  · split at h
    · simp at h
    · dsimp only at h
      split at h
      · simp at h
      · simp only [Prod.mk.injEq, Except.ok.injEq] at h
        obtain ⟨h1, -⟩ := h
        subst h1
        exact (List.length_eq_length_filter_add _).symm

/-- Helper: a library item carrying tag 5 (counts as tagged). -/
def taggedItem : MediaItem :=
  { media_id := 3, title := "C", year := 2019, monitored := true,
    status := "ended", tags := [5] }

/-- Helper: client used for the C5 witness (dry run over a two-item library). -/
def appC5 : StARRClient :=
  { instance_name := "srv",
    media := .ok [eligibleItem, taggedItem],
    tag_id_of := fun _ => .ok 5,
    search_media_resp := fun _ => .ok none,
    add_tags_resp := fun _ _ => .ok none,
    command_status := fun _ => .ok true,
    queue := .ok [] }

/-- Helper: the instance result `process_instance` computes for `appC5` in a
dry run. -/
def outC5 : OutputDict :=
  { server_name := "srv", tagged_count := 1, untagged_count := 1,
    total_count := 2, data := [dryRunEntry eligibleItem] }

/-- C5 witness: the invariant applied to a concrete dry run. -/
theorem upgradinatorr_C5_witness :
    outC5.tagged_count + outC5.untagged_count = outC5.total_count :=
  upgradinatorr_C5 true .radarr defaultSettings appC5 outC5 [] rfl (by decide)

/-- Helper: client for the C6 counterexample: search trigger and tagging
succeed, the command completes, and the queue holds no record matching the
selected item. -/
def appC6 : StARRClient :=
  { instance_name := "srv",
    media := .ok [eligibleItem],
    tag_id_of := fun _ => .ok 5,
    search_media_resp := fun _ => .ok (some { id := 7 }),
    add_tags_resp := fun _ _ => .ok (some { id := 8 }),
    command_status := fun _ => .ok true,
    queue := .ok [] }

/-- C6: the claim says every item of the selection batch appears in the
result's data list even with zero queue matches, but the `if torrents:` guard
(line 174) drops zero-match items: here the selection batch is `[eligibleItem]`
and the data list of the computed result is empty. -/
theorem upgradinatorr_C6_cex :
    filter_media [eligibleItem] 5 2 = [eligibleItem]
    ∧ (process_instance false .radarr defaultSettings appC6).1
        = .ok { server_name := "srv", tagged_count := 0, untagged_count := 1,
                total_count := 1, data := [] } :=
  ⟨rfl, rfl⟩

/-- Python dictionary lookup `item[k]`, raising `KeyError` when absent. -/
def getKeyE (e : List (String × Value)) (k : String) : Except PyError Value :=
  match getKey e k with
  | some v => .ok v
  | none => .error (.keyError k)

/-- Text of one value inside a rendered log line (abstracts the f-string
formatting, which the claims do not depend on). -/
def valueText (v : Value) : String :=
  match v with
  | .vint n => toString n
  | .vstr s => s
  | .vnull => "None"
  | .vscores _ => "dict"

/-- Lines 216-222: the log lines for one media item.  `item['torrents']`
raises `KeyError` when the key is absent; iterating `.items()` over a value
that is not a dictionary raises (the entries built by the code only ever
store a dictionary under `torrents`). -/
def printItem (e : List (String × Value)) : Except PyError (List String) := do
  let title ← getKeyE e "title"
  let year ← getKeyE e "year"
  let torrents ← getKeyE e "torrents"
  match torrents with
  | .vscores m =>
    pure ((valueText title ++ " (" ++ valueText year ++ ")")
      :: (m.map (fun p => "\t" ++ p.1 ++ "\tScore: " ++ toString p.2) ++ [""]))
  | _ => .error .typeError

/-- The per-item loop of `print_output` (line 215). -/
def printItems : List (List (String × Value)) → Except PyError (List String)
  | [] => .ok []
  | e :: rest => do
    let l ← printItem e
    let r ← printItems rest
    pure (l ++ r)

/-- Model of `print_output(output_dict)` (lines 193-225): per instance, a table header
and per-item lines when the data list is nonempty, otherwise a "No items
found" line.  Returns the log lines, or the first Python error raised while
rendering. -/
def print_output : List (String × OutputDict) → Except PyError (List String)
  | [] => .ok []
  | (inst, run_data) :: rest => do
    let head ←
      if run_data.data.isEmpty then
        pure ["No items found for " ++ inst ++ "."]
      else do
        let ls ← printItems run_data.data
        pure (("table:" ++ run_data.server_name) :: ls)
    let tail ← print_output rest
    pure (head ++ tail)

/-- One Discord embed field built by `notification`. -/
structure DiscordField where
  name : String
  value : String
  deriving DecidableEq, Repr

/-- Lines 246-258: the message block for one media item.  Reads
`item['torrents']` (a `KeyError` on dry-run entries); a falsy torrents value
yields the "No upgrades found" line, a truthy non-dictionary would raise on
`.items()` (never built by the code). -/
def notifItem (e : List (String × Value)) : Except PyError String := do
  let title ← getKeyE e "title"
  let year ← getKeyE e "year"
  let torrent ← getKeyE e "torrents"
  let head := valueText title ++ " (" ++ valueText year ++ ")"
  match torrent with
  | .vscores m =>
    if m.isEmpty then
      pure (String.intercalate "\n" [head, "\tNo upgrades found for this item."])
    else
      pure (String.intercalate "\n"
        (head :: m.map (fun p => "\t" ++ p.1 ++ "\n\tCF Score: " ++ toString p.2)))
  | .vnull => pure (String.intercalate "\n" [head, "\tNo upgrades found for this item."])
  | _ => .error .typeError

/-- The per-item loop of `notification` (line 246). -/
def notifItems : List (List (String × Value)) → Except PyError (List String)
  | [] => .ok []
  | e :: rest => do
    let s ← notifItem e
    let r ← notifItems rest
    pure (s :: r)

/-- Model of `notification(output_dict)` (lines 227-267): build one field per instance
whose item-block list is nonempty (value wrapped in the triple-backquote
preformatted marker), then hand the fields to the Discord collaborator.
Returns the field list, or the first Python error raised while building it. -/
def notification : List (String × OutputDict) → Except PyError (List DiscordField)
  | [] => .ok []
  | (_inst, run_data) :: rest => do
    let server_list ← notifItems run_data.data
    let tail ← notification rest
    if server_list.isEmpty then
      pure tail
    else
      pure ({ name := run_data.server_name,
              value := "```" ++ String.intercalate "\n" server_list ++ "```" } :: tail)

theorem print_output_dry_head (inst sn : String) (a b c : Nat) (x : MediaItem)
    (ds : List (List (String × Value))) (rest : List (String × OutputDict)) :
    print_output ((inst,
        { server_name := sn, tagged_count := a, untagged_count := b,
          total_count := c, data := dryRunEntry x :: ds }) :: rest)
      = .error (.keyError "torrents") := rfl

theorem notification_dry_head (inst sn : String) (a b c : Nat) (x : MediaItem)
    (ds : List (List (String × Value))) (rest : List (String × OutputDict)) :
    notification ((inst,
        { server_name := sn, tagged_count := a, untagged_count := b,
          total_count := c, data := dryRunEntry x :: ds }) :: rest)
      = .error (.keyError "torrents") := rfl

/-- C10: dry-run entries are built with the keys `torrent` and
`torrent_custom_format_score` (both null) and without a `torrents` key, while
both report emitters read `item['torrents']`; for every dry run whose
selection batch is nonempty, rendering the human log and building the webhook
payload both hit the missing-key lookup (`KeyError 'torrents'`). -/
theorem upgradinatorr_C10 (instance_type : InstanceType)
    (instance_settings : InstanceSettings) (app : StARRClient)
    (media_dict : List MediaItem) (tag_id : Int)
    (hm : app.media = .ok media_dict)
    (ht : app.tag_id_of instance_settings.tag_name = .ok tag_id)
    (hne : filter_media media_dict tag_id instance_settings.count ≠ [])
    (inst : String) (rest : List (String × OutputDict)) :
    ∃ out : OutputDict,
      (process_instance true instance_type instance_settings app).1 = .ok out
      ∧ out.data ≠ []
      ∧ (∀ e ∈ out.data, getKey e "torrents" = none
          ∧ getKey e "torrent" = some Value.vnull
          ∧ getKey e "torrent_custom_format_score" = some Value.vnull)
      ∧ print_output ((inst, out) :: rest) = .error (.keyError "torrents")
      ∧ notification ((inst, out) :: rest) = .error (.keyError "torrents") := by
  obtain ⟨x, xs, hfx⟩ :
      ∃ x xs, filter_media media_dict tag_id instance_settings.count = x :: xs := by
    cases hfm : filter_media media_dict tag_id instance_settings.count with
    | nil => exact absurd hfm hne
    | cons a l => exact ⟨a, l, rfl⟩
  refine ⟨{ server_name := app.instance_name,
            tagged_count :=
              (media_dict.filter (fun i => decide (tag_id ∈ i.tags))).length,
            untagged_count :=
              (media_dict.filter (fun i => !decide (tag_id ∈ i.tags))).length,
            total_count := media_dict.length,
            data := (filter_media media_dict tag_id instance_settings.count).map
              dryRunEntry }, ?_, ?_, ?_, ?_, ?_⟩
  · simp [process_instance, hm, ht, collectData]
  · rw [hfx]; simp
  · intro e he
    obtain ⟨y, -, rfl⟩ := List.mem_map.mp he
    exact ⟨rfl, rfl, rfl⟩
  · rw [hfx, List.map_cons]
    exact print_output_dry_head ..
  · rw [hfx, List.map_cons]
    exact notification_dry_head ..

/-- C10 witness: the dry-run KeyError reached from a concrete client. -/
theorem upgradinatorr_C10_witness :
    ∃ out : OutputDict,
      (process_instance true .radarr defaultSettings appC5).1 = .ok out
      ∧ out.data ≠ []
      ∧ (∀ e ∈ out.data, getKey e "torrents" = none
          ∧ getKey e "torrent" = some Value.vnull
          ∧ getKey e "torrent_custom_format_score" = some Value.vnull)
      ∧ print_output (("srv", out) :: []) = .error (.keyError "torrents")
      ∧ notification (("srv", out) :: []) = .error (.keyError "torrents") :=
  upgradinatorr_C10 .radarr defaultSettings appC5 [eligibleItem, taggedItem] 5
    rfl rfl (by decide) "srv" []

/-- Aggregate of a completed run of `main` (lines 269-316): the per-instance
outputs in processing order, the rendered log lines, the built Discord
fields, whether a notification was sent, whether the no-instances
configuration error was logged, and the process exit status (`exit()` at
line 291 terminates the interpreter with status 0). -/
structure MainResult where
  final_output : List (String × OutputDict)
  printed : List String
  fields : List DiscordField
  notified : Bool
  config_error_logged : Bool
  exit_code : Nat
  deriving DecidableEq, Repr

/-- The inner loop of lines 298-308 for one instance type: process every
configured instance name that appears in this type's instance data; an
uncaught instance error aborts the whole loop. -/
def processInstances (dry_run : Bool) (instance_type : InstanceType)
    (instance_data : List (String × StARRClient)) :
    List (String × InstanceSettings) → Except PyError (List (String × OutputDict))
  | [] => .ok []
  | (name, settings) :: rest =>
    match instance_data.find? (fun p => p.1 == name) with
    | none => processInstances dry_run instance_type instance_data rest
    | some p =>
      match (process_instance dry_run instance_type settings p.2).1 with
      | .error e => .error e
      | .ok out => do
        let more ← processInstances dry_run instance_type instance_data rest
        pure ((name, out) :: more)

/-- The outer loop of line 297: one pass per instance type of the
`instances_config` mapping. -/
def processAllInstances (dry_run : Bool)
    (instances : List (String × InstanceSettings)) :
    List (InstanceType × List (String × StARRClient)) →
      Except PyError (List (String × OutputDict))
  | [] => .ok []
  | (instance_type, instance_data) :: rest => do
    let here ← processInstances dry_run instance_type instance_data instances
    let there ← processAllInstances dry_run instances rest
    pure (here ++ there)

/-- Model of `main()` (lines 269-316): when no instances are configured, log the
configuration error and `exit()` (status 0, before any processing or
notification); otherwise process every configured instance — `main` installs
no exception handler, so any instance error propagates and aborts the whole
run — and, when the aggregate output is nonempty, print it and send the
notification. -/
def main_run (dry_run : Bool)
    (instances_config : List (InstanceType × List (String × StARRClient)))
    (instances : List (String × InstanceSettings)) : Except PyError MainResult :=
  if instances.isEmpty then
    .ok { final_output := [], printed := [], fields := [], notified := false,
          config_error_logged := true, exit_code := 0 }
  else
    match processAllInstances dry_run instances instances_config with
    | .error e => .error e
    | .ok final_output =>
      if final_output.isEmpty then
        .ok { final_output := [], printed := [], fields := [], notified := false,
              config_error_logged := false, exit_code := 0 }
      else
        match print_output final_output with
        | .error e => .error e
        | .ok printed =>
          match notification final_output with
          | .error e => .error e
          | .ok fields =>
            .ok { final_output := final_output, printed := printed,
                  fields := fields, notified := true,
                  config_error_logged := false, exit_code := 0 }

/-- Helper: a client whose library fetch and tag lookup succeed but whose
search/upgrade trigger call (step SEARCH_TRIGGERED, line 160) raises. -/
def appSearchFail : StARRClient :=
  { instance_name := "bad",
    media := .ok [eligibleItem],
    tag_id_of := fun _ => .ok 5,
    search_media_resp := fun _ => .error "down",
    add_tags_resp := fun _ _ => .ok none,
    command_status := fun _ => .ok true,
    queue := .ok [] }

/-- C4: the claim says a client failure during the search-trigger through
queue-fetch steps of one instance is caught and the remaining instances are
still processed and reported.  `main` has no handler: with a first instance
whose search-trigger call raises and a healthy second instance, the whole run
aborts with no result at all, while the healthy instance alone would produce
one. -/
theorem upgradinatorr_C4_cex :
    (main_run false
        [(InstanceType.radarr, [("bad", appSearchFail), ("good", appC6)])]
        [("bad", defaultSettings), ("good", defaultSettings)]).toOption.isNone = true
    ∧ (main_run false [(InstanceType.radarr, [("good", appC6)])]
        [("good", defaultSettings)]).toOption.isSome = true :=
  ⟨rfl, rfl⟩

/-- C4 (amended): a client-call failure during the search-trigger through
queue-fetch steps of one instance is not caught: the error propagates out of
`main`, so the remaining configured instances are not processed and nothing
is reported or notified, whatever the other instances would have returned.
Stated for a non-dry run whose first instance fetches its library and
resolves its tag id successfully and whose search-trigger call then raises. -/
theorem upgradinatorr_C4 (instance_type : InstanceType)
    (app2 : StARRClient) (s1 s2 : InstanceSettings) (e : String)
    (app1 : StARRClient) (media_dict : List MediaItem) (tag_id : Int)
    (hm : app1.media = .ok media_dict)
    (ht : app1.tag_id_of s1.tag_name = .ok tag_id)
    (hs : app1.search_media_resp
        ((filter_media media_dict tag_id s1.count).map (fun i => i.media_id))
      = .error e) :
    main_run false
        [(instance_type, [("one", app1), ("two", app2)])]
        [("one", s1), ("two", s2)]
      = .error (.clientError e) := by
  simp [main_run, processAllInstances, processInstances, process_instance,
    collectData, hm, ht, hs, List.find?]
  rfl

/-- C4 witness: the propagation applied to concrete clients whose first
instance fails at the search-trigger call. -/
theorem upgradinatorr_C4_witness :
    main_run false [(InstanceType.radarr, [("one", appSearchFail), ("two", appC6)])]
        [("one", defaultSettings), ("two", defaultSettings)]
      = .error (.clientError "down") :=
  upgradinatorr_C4 .radarr appC6 defaultSettings defaultSettings "down"
    appSearchFail [eligibleItem] 5 rfl rfl rfl

/-- C9: with zero configured instances the run does terminate before any
processing, with the configuration error logged and no notification, but the
claimed nonzero exit status is wrong: `exit()` at line 291 exits with
status 0. -/
theorem upgradinatorr_C9_cex :
    main_run false [(InstanceType.radarr, [("srv", appC6)])] []
      = .ok { final_output := [], printed := [], fields := [], notified := false,
              config_error_logged := true, exit_code := 0 }
    ∧ ¬ ∃ r, main_run false [(InstanceType.radarr, [("srv", appC6)])] []
          = .ok r ∧ r.exit_code ≠ 0 := by
  constructor
  · rfl
  · rintro ⟨r, hr, hne⟩
    have h0 : main_run false [(InstanceType.radarr, [("srv", appC6)])] []
        = .ok { final_output := [], printed := [], fields := [], notified := false,
                config_error_logged := true, exit_code := 0 } := rfl
    rw [h0] at hr
    injection hr with h
    subst h
    exact hne rfl

/-- C9 (amended): with zero configured instances the run terminates before
processing any instance, with the configuration error logged, no notification
sent, and exit status 0 (the bare `exit()` call). -/
theorem upgradinatorr_C9 (dry_run : Bool)
    (instances_config : List (InstanceType × List (String × StARRClient))) :
    main_run dry_run instances_config []
      = .ok { final_output := [], printed := [], fields := [], notified := false,
              config_error_logged := true, exit_code := 0 } := rfl
